import Mathlib

/-!
Shallow embedding of the Vulkan rendering core of the point_world repository
(src/renderer/vulkan.rs, with callers in src/app.rs and src/main.rs).

Driver-side behaviour (device enumeration results, surface queries, the
outcome of image acquisition and of fence flushes) is supplied as explicit
input data; host-side control flow is translated function by function from
the Rust source.  Fatal panics are modelled either as `Option.none` results
(for the one-time setup path, where every failure is fatal) or as an explicit
`panicked` outcome constructor (for the per-frame path, where the source
distinguishes panicking from returning).
-/

/-- Queue flags of a queue family, as queried from the driver.  Models the
relevant bits of vulkano QueueFlags; the source only ever tests the GRAPHICS
bit via queue_flags.contains(QueueFlags::GRAPHICS). -/
structure QueueFlags where
  graphics : Bool
  compute : Bool
  transfer : Bool
deriving DecidableEq

/-- Properties of one queue family (vulkano QueueFamilyProperties). -/
structure QueueFamilyProperties where
  queue_flags : QueueFlags
deriving DecidableEq

/-- Device extension set.  The source only ever mentions khr_swapchain
(DeviceExtensions \x7b khr_swapchain: true, ..empty() \x7d). -/
structure DeviceExtensions where
  khr_swapchain : Bool
deriving DecidableEq

/-- DeviceExtensions.contains from vulkano: every extension enabled in the
required set is enabled in this set. -/
def DeviceExtensions.contains (self req : DeviceExtensions) : Bool :=
  !req.khr_swapchain || self.khr_swapchain

/-- The required device extensions from RenderInstance::new:
khr_swapchain = true and nothing else. -/
def device_extensions : DeviceExtensions :=
  { khr_swapchain := true }

/-- Image formats.  The source singles out Format::B8G8R8A8_SRGB; all other
formats are represented by an opaque numeric code. -/
inductive Format where
  | B8G8R8A8_SRGB
  | otherFormat (code : Nat)
deriving DecidableEq

/-- Colour space reported alongside a surface format; not inspected by the
source, kept as an opaque code. -/
structure ColorSpace where
  code : Nat
deriving DecidableEq

/-- Composite alpha mode; the source never inspects which one it is, it only
takes the first supported one, so an opaque code suffices. -/
structure CompositeAlpha where
  code : Nat
deriving DecidableEq

/-- Surface capabilities, as returned by surface_capabilities: the fields the
source reads are min_image_count and supported_composite_alpha (the latter
iterated in reported order). -/
structure SurfaceCapabilities where
  min_image_count : Nat
  supported_composite_alpha : List CompositeAlpha
deriving DecidableEq

/-- A physical device together with everything the source queries about it
against the single window surface in scope: supported extensions, queue
family properties, per-family presentation support (surface_support returns
a Result, modelled as Option, which the source reads with unwrap_or(false)),
surface formats in reported order, and surface capabilities. -/
structure PhysicalDevice where
  supported_extensions : DeviceExtensions
  queue_family_properties : List QueueFamilyProperties
  surface_support : Nat → Option Bool
  surface_formats : List (Format × ColorSpace)
  surface_capabilities : SurfaceCapabilities

/-- The per-family qualification predicate shared by the device filter and
the queue family search in RenderInstance::new:
q.queue_flags.contains(QueueFlags::GRAPHICS)
and surface_support(i).unwrap_or(false). -/
def family_qualifies (p : PhysicalDevice) (i : Nat) (q : QueueFamilyProperties) : Bool :=
  q.queue_flags.graphics && (p.surface_support i).getD false

/-- Mirrors iter().enumerate().any(pred) over the queue family list, with the
running enumeration counter made explicit. -/
def anyIndexed (pred : Nat → QueueFamilyProperties → Bool) :
    Nat → List QueueFamilyProperties → Bool
  | _, [] => false
  | i, q :: rest => pred i q || anyIndexed pred (i + 1) rest

/-- Mirrors iter().enumerate().position(pred): the index of the first
element satisfying pred, counting from the given start index. -/
def positionIndexed (pred : Nat → QueueFamilyProperties → Bool) :
    Nat → List QueueFamilyProperties → Option Nat
  | _, [] => none
  | i, q :: rest => if pred i q then some i else positionIndexed pred (i + 1) rest

/-- The inner any(..) of the physical device find in RenderInstance::new:
does the device expose some queue family that is graphics capable and can
present to the surface. -/
def has_qualifying_family (p : PhysicalDevice) : Bool :=
  anyIndexed (fun i q => family_qualifies p i q) 0 p.queue_family_properties

/-- Whether queue family index i of device p qualifies (specification-side
view of the predicate, reading the family out of the list). -/
def index_qualifies (p : PhysicalDevice) (i : Nat) : Bool :=
  match p.queue_family_properties.get? i with
  | some q => family_qualifies p i q
  | none => false

/-- The extension filter applied to enumerate_physical_devices() in
RenderInstance::new: keep devices whose supported extensions contain the
required set. -/
def filtered_devices (devs : List PhysicalDevice) : List PhysicalDevice :=
  devs.filter fun p => p.supported_extensions.contains device_extensions

/-- Physical device selection from RenderInstance::new: first
extension-filtered device that has some graphics plus present queue family.
A none result models the expect-induced fatal panic. -/
def select_physical_device (devs : List PhysicalDevice) : Option PhysicalDevice :=
  (filtered_devices devs).find? has_qualifying_family

/-- Queue family index selection from RenderInstance::new:
position of the first qualifying family on the selected device.  A none
result models the expect-induced fatal panic. -/
def select_queue_family_index (p : PhysicalDevice) : Option Nat :=
  positionIndexed (fun i q => family_qualifies p i q) 0 p.queue_family_properties

/-- Image usage flags; the source requests COLOR_ATTACHMENT only. -/
inductive ImageUsage where
  | colorAttachment
  | otherUsage (code : Nat)
deriving DecidableEq

/-- Present mode; the source requests Fifo. -/
inductive PresentMode where
  | Fifo
  | FifoRelaxed
  | Mailbox
  | Immediate
deriving DecidableEq

/-- The fields of vulkano SwapchainCreateInfo that the source sets explicitly
in RenderInstance::new (all other fields are left at their defaults and never
read by the rest of the program). -/
structure SwapchainCreateInfo where
  min_image_count : Nat
  image_format : Format
  image_extent : Nat × Nat
  image_usage : ImageUsage
  composite_alpha : CompositeAlpha
  present_mode : PresentMode
deriving DecidableEq

/-- The surface format choice of RenderInstance::new:
formats.iter().cloned().find(fst == B8G8R8A8_SRGB).unwrap_or(formats[0]).
Indexing formats[0] panics on an empty list, which is fatal, hence none. -/
def choose_image_format (formats : List (Format × ColorSpace)) :
    Option (Format × ColorSpace) :=
  match formats with
  | [] => none
  | f0 :: _ => some ((formats.find? fun fc => fc.1 == Format.B8G8R8A8_SRGB).getD f0)

/-- The swapchaininfo record built in RenderInstance::new from the surface
capabilities, the chosen format, the window inner size, and the first
supported composite alpha mode.  A none result models the fatal panic on an
empty format list or an empty composite alpha list. -/
def mk_swapchaininfo (p : PhysicalDevice) (window_size : Nat × Nat) :
    Option SwapchainCreateInfo := do
  let fc ← choose_image_format p.surface_formats
  let ca ← p.surface_capabilities.supported_composite_alpha.head?
  some { min_image_count := p.surface_capabilities.min_image_count,
         image_format := fc.1,
         image_extent := window_size,
         image_usage := ImageUsage.colorAttachment,
         composite_alpha := ca,
         present_mode := PresentMode.Fifo }

/-- A swapchain image handle as returned by Swapchain::new; only its identity
matters to the host code. -/
structure Image where
  id : Nat
deriving DecidableEq

/-- ImageView::new_default wraps one image. -/
structure ImageView where
  image : Image
deriving DecidableEq

/-- ImageView::new_default from the image view construction loop. -/
def ImageView.new_default (img : Image) : ImageView :=
  { image := img }

/-- Attachment load operation of the single pass render pass. -/
inductive LoadOp where
  | Clear
  | Load
  | DontCare
deriving DecidableEq

/-- Attachment store operation of the single pass render pass. -/
inductive StoreOp where
  | Store
  | DontCare
deriving DecidableEq

/-- The render pass built by single_pass_renderpass in RenderContext::new:
one colour attachment with the swapchain image format, one sample,
load = Clear, store = Store. -/
structure RenderPassT where
  format : Format
  samples : Nat
  load_op : LoadOp
  store_op : StoreOp
deriving DecidableEq

/-- A framebuffer: the render pass it binds plus its attachment list
(FramebufferCreateInfo.attachments). -/
structure FramebufferT where
  render_pass : RenderPassT
  attachments : List ImageView
deriving DecidableEq

/-- The swapchain handle returned by Swapchain::new; its image_format is the
format recorded in the create info (read back by swapchain.image_format()). -/
structure SwapchainHandle where
  id : Nat
  image_format : Format
deriving DecidableEq

/-- RenderContext: swapchain, image views, render pass, framebuffers
(struct RenderContext in the source). -/
structure RenderContext where
  swapchain : SwapchainHandle
  image_views : List ImageView
  render_pass : RenderPassT
  frame_buffers : List FramebufferT
deriving DecidableEq

/-- RenderContext::new.  The call to Swapchain::new is driver territory: its
two results, the swapchain handle identity and the image list, are passed in
as swapchain_id and images (the handle format is the create info format, as
reported by swapchain.image_format()).  The rest is translated directly:
image views map ImageView::new_default over the images, the render pass is
built from the swapchain format, and the framebuffers map over the image
views, each binding exactly its own view as the sole attachment. -/
def RenderContext.new (device : Nat) (surface : Nat)
    (create_info : SwapchainCreateInfo)
    (swapchain_id : Nat) (images : List Image) : RenderContext :=
  let _ := device
  let _ := surface
  let swapchain : SwapchainHandle :=
    { id := swapchain_id, image_format := create_info.image_format }
  let image_views : List ImageView := images.map ImageView.new_default
  let swapchain_format := swapchain.image_format
  let render_pass : RenderPassT :=
    { format := swapchain_format, samples := 1,
      load_op := LoadOp.Clear, store_op := StoreOp.Store }
  let frame_buffers : List FramebufferT := image_views.map fun view =>
    { render_pass := render_pass, attachments := [view] }
  { swapchain := swapchain, image_views := image_views,
    render_pass := render_pass, frame_buffers := frame_buffers }

/-- Clear value for one attachment.  The source writes
ClearValue::Float([0.1, 0.1, 0.2, 1.0]); the four float literals are carried
as rationals, no arithmetic is ever performed on them. -/
inductive ClearValue where
  | Float (r g b a : Rat)
deriving DecidableEq

/-- The fixed clear colour of the recorded command buffer (bluish). -/
def clear_color : ClearValue :=
  ClearValue.Float 0.1 0.1 0.2 1.0

/-- Subpass contents argument of begin_render_pass. -/
inductive SubpassContents where
  | Inline
  | SecondaryCommandBuffers
deriving DecidableEq

/-- The fields of RenderPassBeginInfo that the source sets: the clear value
list and the framebuffer (RenderPassBeginInfo::framebuffer(fb)). -/
structure RenderPassBeginInfo where
  clear_values : List (Option ClearValue)
  framebuffer : FramebufferT
deriving DecidableEq

/-- Commands recordable into a command buffer.  The source records only a
begin_render_pass and an end_render_pass; the draw constructor exists so that
the absence of draw commands is a contentful statement. -/
inductive Command where
  | begin_render_pass (info : RenderPassBeginInfo) (contents : SubpassContents)
  | end_render_pass
  | draw (vertex_count : Nat)
deriving DecidableEq

/-- Command buffer usage; the source requests OneTimeSubmit. -/
inductive CommandBufferUsage where
  | OneTimeSubmit
  | MultipleSubmit
  | SimultaneousUse
deriving DecidableEq

/-- A built command buffer: its usage and its recorded command list. -/
structure CommandBuffer where
  usage : CommandBufferUsage
  commands : List Command
deriving DecidableEq

/-- GPU futures as the closed combinator language the source uses through
vulkano: sync::now(device), the acquire completion future returned by
acquire_next_image, join, then_execute (on a queue, of a command buffer),
then_swapchain_present (of an image index of a swapchain), and the boxed
fence returned by then_signal_fence_and_flush. -/
inductive GpuFuture where
  | now (device : Nat)
  | acquired (swapchain_id : Nat) (image_index : Nat)
  | join (left right : GpuFuture)
  | then_execute (prev : GpuFuture) (queue : Nat) (command_buffer : CommandBuffer)
  | then_present (prev : GpuFuture) (queue : Nat) (swapchain_id : Nat) (image_index : Nat)
  | fence_signal (prev : GpuFuture)
deriving DecidableEq

/-- GpuFuture::cleanup_finished releases host resources attached to already
completed GPU work; it does not change which future is held nor its chain
structure, so at this level of abstraction it returns the token itself. -/
def GpuFuture.cleanup_finished (f : GpuFuture) : GpuFuture := f

/-- RenderInstance: the state struct of the renderer.  Handles whose identity
alone matters (instance, surface, device, queue, allocator) are numeric. -/
structure RenderInstance where
  instance_id : Nat
  surface_id : Nat
  device : Nat
  queue : Nat
  command_buffer_allocator : Nat
  previous_frame_end : Option GpuFuture
  rcx : Option RenderContext
deriving DecidableEq

/-- Outcome of acquire_next_image for one call, as supplied by the driver:
success with an image index and a suboptimal flag, AcquireError::OutOfDate,
or any other AcquireError (opaque code). -/
inductive AcquireResult where
  | ok (image_index : Nat) (suboptimal : Bool)
  | outOfDate
  | err (code : Nat)
deriving DecidableEq

/-- Outcome of then_signal_fence_and_flush for one call, as observed by the
driver: success, FlushError::OutOfDate, or any other FlushError. -/
inductive FlushResult where
  | ok
  | outOfDate
  | err (code : Nat)
deriving DecidableEq

/-- Driver responses consumed by one call of Renderer::render: the acquire
outcome, whether the four fallible command recording steps succeed (the
builder construction, begin_render_pass, end_render_pass and build unwraps),
whether then_execute succeeds, and the flush outcome. -/
structure FrameEnv where
  acquire : AcquireResult
  record_ok : Bool
  execute_ok : Bool
  flush : FlushResult
deriving DecidableEq

/-- What one successful frame hands to the GPU and the presentation engine:
the built command buffer, the queue it executes and presents on, the present
request target, and the chained future passed to then_signal_fence_and_flush. -/
structure Submission where
  command_buffer : CommandBuffer
  queue : Nat
  present_swapchain : Nat
  present_image_index : Nat
  future : GpuFuture
deriving DecidableEq

/-- Outcome of one call of Renderer::render: either a normal return carrying
the updated state and the submission (none when the frame was aborted before
recording), or a panic with the panic message. -/
inductive RenderOutcome where
  | returns (st : RenderInstance) (submitted : Option Submission)
  | panicked (msg : String)
deriving DecidableEq

/-- Renderer::render, translated step by step from the source.

1. rcx is read with expect: absence panics.
2. cleanup_finished is called on the previous frame end token if present.
3. acquire_next_image: OutOfDate returns at once with nothing recorded,
   submitted or presented; any other error panics; success yields the index.
4. The framebuffer at the acquired index is read by Vec indexing, which
   panics when out of bounds; one single use command buffer is recorded that
   begins the render pass on that framebuffer with the fixed clear colour and
   ends it, with no draw command; each recording step is unwrapped, so a
   recording failure panics.
5. previous_frame_end.take().unwrap(): an absent token panics; otherwise the
   taken token is joined with the acquire future, then_execute on the queue
   (unwrap: failure panics), then_swapchain_present of the image index, and
   then_signal_fence_and_flush.
6. The new previous_frame_end is the boxed fence future on a successful
   flush, and a fresh sync::now(device) future on FlushError::OutOfDate or on
   any other flush error (the latter after logging); no flush outcome panics. -/
def Renderer.render (inst : RenderInstance) (env : FrameEnv) : RenderOutcome :=
  match inst.rcx with
  | none => RenderOutcome.panicked "RenderContext not initialized"
  | some rcx =>
    let inst1 : RenderInstance :=
      { inst with previous_frame_end :=
          inst.previous_frame_end.map GpuFuture.cleanup_finished }
    match env.acquire with
    | AcquireResult.outOfDate => RenderOutcome.returns inst1 none
    | AcquireResult.err _ => RenderOutcome.panicked "Failed to acquire next image"
    | AcquireResult.ok image_index _suboptimal =>
      match rcx.frame_buffers.get? image_index with
      | none => RenderOutcome.panicked "index out of bounds"
      | some framebuffer =>
        if env.record_ok then
          let command_buffer : CommandBuffer :=
            { usage := CommandBufferUsage.OneTimeSubmit,
              commands :=
                [ Command.begin_render_pass
                    { clear_values := [some clear_color],
                      framebuffer := framebuffer }
                    SubpassContents.Inline,
                  Command.end_render_pass ] }
          match inst1.previous_frame_end with
          | none => RenderOutcome.panicked "called Option unwrap on a None value"
          | some previous =>
            if env.execute_ok then
              let future : GpuFuture :=
                GpuFuture.then_present
                  (GpuFuture.then_execute
                    (GpuFuture.join previous
                      (GpuFuture.acquired rcx.swapchain.id image_index))
                    inst.queue command_buffer)
                  inst.queue rcx.swapchain.id image_index
              let new_previous : GpuFuture :=
                match env.flush with
                | FlushResult.ok => GpuFuture.fence_signal future
                | FlushResult.outOfDate => GpuFuture.now inst.device
                | FlushResult.err _ => GpuFuture.now inst.device
              RenderOutcome.returns
                { inst1 with previous_frame_end := some new_previous }
                (some { command_buffer := command_buffer,
                        queue := inst.queue,
                        present_swapchain := rcx.swapchain.id,
                        present_image_index := image_index,
                        future := future })
            else RenderOutcome.panicked "then_execute failed"
        else RenderOutcome.panicked "command buffer recording failed"

/-- Driver-side handles produced during setup (instance and surface creation,
Device::new, Swapchain::new): their identities and the swapchain image list
are inputs to the model, not computed by host code. -/
structure SetupDriver where
  instance_id : Nat
  surface_id : Nat
  device_id : Nat
  queue_id : Nat
  allocator_id : Nat
  swapchain_id : Nat
  images : List Image
deriving DecidableEq

/-- Result of RenderInstance::new: the selection outcomes recorded alongside
the constructed instance, so that theorems can speak about which device and
queue family were chosen. -/
structure NewResult where
  physical_device : PhysicalDevice
  queue_family_index : Nat
  swapchaininfo : SwapchainCreateInfo
  inst : RenderInstance

/-- RenderInstance::new, from the physical device list the driver enumerates
and the window inner size.  Every fatal panic of the setup path (no suitable
physical device, no qualifying queue family, empty surface format list,
empty composite alpha list) is a none result, and the monadic sequencing
mirrors the source order: device selection happens before the swapchain
parameters are derived and before the render context is built, so a failed
selection creates no device-dependent object.  On success the instance holds
the freshly built render context and a previous_frame_end token initialised
to Some(sync::now(device).boxed()). -/
def RenderInstance.new (driver : SetupDriver) (devs : List PhysicalDevice)
    (window_size : Nat × Nat) : Option NewResult := do
  let physical_device ← select_physical_device devs
  let queue_family_index ← select_queue_family_index physical_device
  let swapchaininfo ← mk_swapchaininfo physical_device window_size
  let rcx := RenderContext.new driver.device_id driver.surface_id swapchaininfo
    driver.swapchain_id driver.images
  some { physical_device := physical_device,
         queue_family_index := queue_family_index,
         swapchaininfo := swapchaininfo,
         inst := { instance_id := driver.instance_id,
                   surface_id := driver.surface_id,
                   device := driver.device_id,
                   queue := driver.queue_id,
                   command_buffer_allocator := driver.allocator_id,
                   previous_frame_end := some (GpuFuture.now driver.device_id),
                   rcx := some rcx } }

/-! Concrete sample data used to evaluate the definitions on closed inputs. -/

/-- Two swapchain images, as a small driver response. -/
def demo_images : List Image := [{ id := 0 }, { id := 1 }]

/-- A concrete swapchain create info. -/
def demo_info : SwapchainCreateInfo :=
  { min_image_count := 2, image_format := Format.B8G8R8A8_SRGB,
    image_extent := (800, 600), image_usage := ImageUsage.colorAttachment,
    composite_alpha := { code := 0 }, present_mode := PresentMode.Fifo }

/-- A concrete render context built by RenderContext.new over the two demo
images. -/
def demo_rcx : RenderContext := RenderContext.new 1 2 demo_info 7 demo_images

/-- A concrete previous frame end token. -/
def demo_token : GpuFuture := GpuFuture.now 1

/-- A concrete renderer state with the token present. -/
def demo_inst : RenderInstance :=
  { instance_id := 10, surface_id := 2, device := 1, queue := 3,
    command_buffer_allocator := 4, previous_frame_end := some demo_token,
    rcx := some demo_rcx }

/-- The same state with the previous frame end token absent. -/
def demo_inst_no_token : RenderInstance :=
  { demo_inst with previous_frame_end := none }

/-- Frame environment in which acquisition reports out of date. -/
def env_out_of_date : FrameEnv :=
  { acquire := AcquireResult.outOfDate, record_ok := true,
    execute_ok := true, flush := FlushResult.ok }

/-- Frame environment in which every step succeeds, image index 0. -/
def env_all_ok : FrameEnv :=
  { acquire := AcquireResult.ok 0 false, record_ok := true,
    execute_ok := true, flush := FlushResult.ok }

/-- Frame environment in which acquisition fails with an error other than
out of date. -/
def env_acquire_err : FrameEnv :=
  { acquire := AcquireResult.err 5, record_ok := true,
    execute_ok := true, flush := FlushResult.ok }

/-- Frame environment in which the flush reports out of date. -/
def env_flush_out_of_date : FrameEnv :=
  { acquire := AcquireResult.ok 1 false, record_ok := true,
    execute_ok := true, flush := FlushResult.outOfDate }

/-- A concrete physical device lacking the swapchain extension. -/
def demo_dev_no_ext : PhysicalDevice :=
  { supported_extensions := { khr_swapchain := false },
    queue_family_properties :=
      [{ queue_flags := { graphics := true, compute := true, transfer := true } }],
    surface_support := fun _ => some true,
    surface_formats := [(Format.B8G8R8A8_SRGB, { code := 0 })],
    surface_capabilities :=
      { min_image_count := 2, supported_composite_alpha := [{ code := 0 }] } }

/-- A concrete physical device with the extension but no qualifying queue
family: family 0 lacks graphics, family 1 cannot present. -/
def demo_dev_no_family : PhysicalDevice :=
  { supported_extensions := { khr_swapchain := true },
    queue_family_properties :=
      [{ queue_flags := { graphics := false, compute := true, transfer := true } },
       { queue_flags := { graphics := true, compute := false, transfer := true } }],
    surface_support := fun i => if i == 0 then some true else some false,
    surface_formats := [(Format.B8G8R8A8_SRGB, { code := 0 })],
    surface_capabilities :=
      { min_image_count := 2, supported_composite_alpha := [{ code := 0 }] } }

/-- A concrete qualifying physical device whose first qualifying family is
index 1 (family 0 is graphics capable but cannot present). -/
def demo_dev_good : PhysicalDevice :=
  { supported_extensions := { khr_swapchain := true },
    queue_family_properties :=
      [{ queue_flags := { graphics := true, compute := true, transfer := true } },
       { queue_flags := { graphics := true, compute := false, transfer := true } }],
    surface_support := fun i => if i == 0 then some false else some true,
    surface_formats :=
      [(Format.otherFormat 44, { code := 1 }), (Format.B8G8R8A8_SRGB, { code := 0 })],
    surface_capabilities :=
      { min_image_count := 3, supported_composite_alpha := [{ code := 2 }, { code := 5 }] } }

/-- A concrete driver response for setup. -/
def demo_driver : SetupDriver :=
  { instance_id := 10, surface_id := 2, device_id := 1, queue_id := 3,
    allocator_id := 4, swapchain_id := 7, images := demo_images }

/-- A concrete enumeration order of the three demo devices. -/
def demo_devs : List PhysicalDevice :=
  [demo_dev_no_ext, demo_dev_no_family, demo_dev_good]

/-- The swapchain create info that setup derives for demo_dev_good at window
size 640 by 480. -/
def demo_info_good : SwapchainCreateInfo :=
  { min_image_count := 3, image_format := Format.B8G8R8A8_SRGB,
    image_extent := (640, 480), image_usage := ImageUsage.colorAttachment,
    composite_alpha := { code := 2 }, present_mode := PresentMode.Fifo }

/-- The full result of RenderInstance.new on the demo driver, demo device
list and window size 640 by 480. -/
def demo_new_result : NewResult :=
  { physical_device := demo_dev_good,
    queue_family_index := 1,
    swapchaininfo := demo_info_good,
    inst := { instance_id := 10, surface_id := 2, device := 1, queue := 3,
              command_buffer_allocator := 4,
              previous_frame_end := some (GpuFuture.now 1),
              rcx := some (RenderContext.new 1 2 demo_info_good 7 demo_images) } }

/-! Helper lemmas. -/

/-- Cleanup of finished work leaves the optional token unchanged. -/
theorem map_cleanup_finished (o : Option GpuFuture) :
    o.map GpuFuture.cleanup_finished = o := by
  cases o <;> rfl

/-- The state after the cleanup step is the state itself. -/
theorem cleanup_state_eq (inst : RenderInstance) :
    ({ inst with previous_frame_end :=
        inst.previous_frame_end.map GpuFuture.cleanup_finished } : RenderInstance)
      = inst := by
  rw [map_cleanup_finished]

/-- C1: when image acquisition reports the swapchain is out of date,
Renderer::render returns at once with no command buffer recorded or
submitted, no present request and no panic (and an unchanged state); on any
other acquisition failure it panics. -/
theorem c1_acquire_out_of_date_aborts (inst : RenderInstance)
    (rcx : RenderContext) (env : FrameEnv) (hrcx : inst.rcx = some rcx) :
    (env.acquire = AcquireResult.outOfDate →
      Renderer.render inst env = RenderOutcome.returns inst none) ∧
    (∀ code, env.acquire = AcquireResult.err code →
      Renderer.render inst env =
        RenderOutcome.panicked "Failed to acquire next image") := by
  constructor
  · intro h
    simp only [Renderer.render, hrcx, h, map_cleanup_finished]
    rw [← hrcx]
  · intro code h
    simp only [Renderer.render, hrcx, h]

/-- Closed evaluation of the C1 theorem at concrete inputs. -/
theorem c1_acquire_out_of_date_aborts_witness :
    demo_inst.rcx = some demo_rcx ∧
    env_out_of_date.acquire = AcquireResult.outOfDate ∧
    Renderer.render demo_inst env_out_of_date = RenderOutcome.returns demo_inst none :=
  ⟨rfl, rfl,
    (c1_acquire_out_of_date_aborts demo_inst demo_rcx env_out_of_date rfl).1 rfl⟩

/-- C10: when Renderer::render returns early because acquisition reported
out of date, the resulting state agrees with the initial one on every field:
the previous frame end token is not taken, is the same token up to the
transient cleanup of finished work (which leaves it unchanged), and stays
present if it was present, and the render context is unmodified; nothing is
submitted. -/
theorem c10_out_of_date_preserves_state (inst : RenderInstance)
    (rcx : RenderContext) (env : FrameEnv) (hrcx : inst.rcx = some rcx)
    (hacq : env.acquire = AcquireResult.outOfDate) :
    ∃ st, Renderer.render inst env = RenderOutcome.returns st none ∧
      st.previous_frame_end =
        inst.previous_frame_end.map GpuFuture.cleanup_finished ∧
      st.previous_frame_end = inst.previous_frame_end ∧
      st.rcx = inst.rcx ∧
      st.instance_id = inst.instance_id ∧
      st.surface_id = inst.surface_id ∧
      st.device = inst.device ∧
      st.queue = inst.queue ∧
      st.command_buffer_allocator = inst.command_buffer_allocator ∧
      (inst.previous_frame_end.isSome → st.previous_frame_end.isSome) := by
  refine ⟨inst, ?_, ?_, rfl, rfl, rfl, rfl, rfl, rfl, rfl, fun h => h⟩
  · simp only [Renderer.render, hrcx, hacq, map_cleanup_finished]
    rw [← hrcx]
  · rw [map_cleanup_finished]

/-- Closed evaluation of the C10 theorem at concrete inputs. -/
theorem c10_out_of_date_preserves_state_witness :
    demo_inst.rcx = some demo_rcx ∧
    env_out_of_date.acquire = AcquireResult.outOfDate ∧
    ∃ st, Renderer.render demo_inst env_out_of_date = RenderOutcome.returns st none ∧
      st.previous_frame_end =
        demo_inst.previous_frame_end.map GpuFuture.cleanup_finished ∧
      st.previous_frame_end = demo_inst.previous_frame_end ∧
      st.rcx = demo_inst.rcx ∧
      st.instance_id = demo_inst.instance_id ∧
      st.surface_id = demo_inst.surface_id ∧
      st.device = demo_inst.device ∧
      st.queue = demo_inst.queue ∧
      st.command_buffer_allocator = demo_inst.command_buffer_allocator ∧
      (demo_inst.previous_frame_end.isSome → st.previous_frame_end.isSome) :=
  ⟨rfl, rfl,
    c10_out_of_date_preserves_state demo_inst demo_rcx env_out_of_date rfl rfl⟩

/-- Reduction of Renderer.render on the full success path (acquisition
succeeded, the framebuffer index is in range, recording and execution
succeed, the token is present), for any flush outcome. -/
theorem render_success_eq (inst : RenderInstance) (rcx : RenderContext)
    (env : FrameEnv) (prev : GpuFuture) (fb : FramebufferT) (i : Nat) (b : Bool)
    (hrcx : inst.rcx = some rcx)
    (hprev : inst.previous_frame_end = some prev)
    (hacq : env.acquire = AcquireResult.ok i b)
    (hfb : rcx.frame_buffers.get? i = some fb)
    (hrec : env.record_ok = true)
    (hexec : env.execute_ok = true) :
    Renderer.render inst env =
      RenderOutcome.returns
        { inst with previous_frame_end := some (match env.flush with
                  | FlushResult.ok =>
                      GpuFuture.fence_signal
                        (GpuFuture.then_present
                          (GpuFuture.then_execute
                            (GpuFuture.join prev
                              (GpuFuture.acquired rcx.swapchain.id i))
                            inst.queue
                            { usage := CommandBufferUsage.OneTimeSubmit,
                              commands :=
                                [ Command.begin_render_pass
                                    { clear_values := [some clear_color],
                                      framebuffer := fb }
                                    SubpassContents.Inline,
                                  Command.end_render_pass ] })
                          inst.queue rcx.swapchain.id i)
                  | FlushResult.outOfDate => GpuFuture.now inst.device
                  | FlushResult.err _ => GpuFuture.now inst.device) }
        (some
          { command_buffer :=
              { usage := CommandBufferUsage.OneTimeSubmit,
                commands :=
                  [ Command.begin_render_pass
                      { clear_values := [some clear_color],
                        framebuffer := fb }
                      SubpassContents.Inline,
                    Command.end_render_pass ] },
            queue := inst.queue,
            present_swapchain := rcx.swapchain.id,
            present_image_index := i,
            future :=
              GpuFuture.then_present
                (GpuFuture.then_execute
                  (GpuFuture.join prev
                    (GpuFuture.acquired rcx.swapchain.id i))
                  inst.queue
                  { usage := CommandBufferUsage.OneTimeSubmit,
                    commands :=
                      [ Command.begin_render_pass
                          { clear_values := [some clear_color],
                            framebuffer := fb }
                          SubpassContents.Inline,
                        Command.end_render_pass ] })
                inst.queue rcx.swapchain.id i }) := by
  simp only [Renderer.render, hrcx, hacq, hfb, hrec, hexec, hprev,
    map_cleanup_finished, if_true]

/-- C7: on a successful frame exactly one single use command buffer is
recorded, beginning the render pass on the framebuffer at the acquired image
index with the fixed clear colour, ending it, and containing no draw
command; and the submitted future chain is, in order: the previous frame end
token taken by move, joined with the acquire completion future, then
execution of the command buffer on the queue, then a present request for the
acquired image index, then the fence and flush request. -/
theorem c7_frame_work_and_chain (inst : RenderInstance) (rcx : RenderContext)
    (env : FrameEnv) (prev : GpuFuture) (fb : FramebufferT) (i : Nat) (b : Bool)
    (hrcx : inst.rcx = some rcx)
    (hprev : inst.previous_frame_end = some prev)
    (hacq : env.acquire = AcquireResult.ok i b)
    (hfb : rcx.frame_buffers.get? i = some fb)
    (hrec : env.record_ok = true)
    (hexec : env.execute_ok = true) :
    ∃ st sub, Renderer.render inst env = RenderOutcome.returns st (some sub) ∧
      sub.command_buffer =
        { usage := CommandBufferUsage.OneTimeSubmit,
          commands :=
            [ Command.begin_render_pass
                { clear_values := [some clear_color], framebuffer := fb }
                SubpassContents.Inline,
              Command.end_render_pass ] } ∧
      (∀ n, Command.draw n ∉ sub.command_buffer.commands) ∧
      sub.queue = inst.queue ∧
      sub.present_swapchain = rcx.swapchain.id ∧
      sub.present_image_index = i ∧
      sub.future =
        GpuFuture.then_present
          (GpuFuture.then_execute
            (GpuFuture.join prev (GpuFuture.acquired rcx.swapchain.id i))
            inst.queue sub.command_buffer)
          inst.queue rcx.swapchain.id i := by
  refine ⟨_, _, render_success_eq inst rcx env prev fb i b hrcx hprev hacq hfb hrec hexec,
    rfl, ?_, rfl, rfl, rfl, rfl⟩
  intro n
  simp

/-- Closed evaluation of the C7 theorem at concrete inputs. -/
theorem c7_frame_work_and_chain_witness :
    demo_inst.rcx = some demo_rcx ∧
    demo_inst.previous_frame_end = some demo_token ∧
    env_all_ok.acquire = AcquireResult.ok 0 false ∧
    demo_rcx.frame_buffers.get? 0 =
      some { render_pass := demo_rcx.render_pass,
             attachments := [ImageView.new_default { id := 0 }] } ∧
    env_all_ok.record_ok = true ∧
    env_all_ok.execute_ok = true ∧
    ∃ st sub, Renderer.render demo_inst env_all_ok = RenderOutcome.returns st (some sub) ∧
      sub.command_buffer =
        { usage := CommandBufferUsage.OneTimeSubmit,
          commands :=
            [ Command.begin_render_pass
                { clear_values := [some clear_color],
                  framebuffer :=
                    { render_pass := demo_rcx.render_pass,
                      attachments := [ImageView.new_default { id := 0 }] } }
                SubpassContents.Inline,
              Command.end_render_pass ] } ∧
      (∀ n, Command.draw n ∉ sub.command_buffer.commands) ∧
      sub.queue = demo_inst.queue ∧
      sub.present_swapchain = demo_rcx.swapchain.id ∧
      sub.present_image_index = 0 ∧
      sub.future =
        GpuFuture.then_present
          (GpuFuture.then_execute
            (GpuFuture.join demo_token (GpuFuture.acquired demo_rcx.swapchain.id 0))
            demo_inst.queue sub.command_buffer)
          demo_inst.queue demo_rcx.swapchain.id 0 :=
  ⟨rfl, rfl, rfl, rfl, rfl, rfl,
    c7_frame_work_and_chain demo_inst demo_rcx env_all_ok demo_token
      { render_pass := demo_rcx.render_pass,
        attachments := [ImageView.new_default { id := 0 }] }
      0 false rfl rfl rfl rfl rfl rfl⟩

/-- C6: whatever the flush outcome is, the frame ends with a present token:
on a successful flush the previous frame end becomes the fenced submission
future, and on an out of date flush or any other flush error it becomes a
fresh no op future tied to the device; no flush outcome panics. -/
theorem c6_flush_degrades_gracefully (inst : RenderInstance)
    (rcx : RenderContext) (env : FrameEnv) (prev : GpuFuture)
    (fb : FramebufferT) (i : Nat) (b : Bool)
    (hrcx : inst.rcx = some rcx)
    (hprev : inst.previous_frame_end = some prev)
    (hacq : env.acquire = AcquireResult.ok i b)
    (hfb : rcx.frame_buffers.get? i = some fb)
    (hrec : env.record_ok = true)
    (hexec : env.execute_ok = true) :
    ∃ st sub, Renderer.render inst env = RenderOutcome.returns st (some sub) ∧
      (env.flush = FlushResult.ok →
        st.previous_frame_end = some (GpuFuture.fence_signal sub.future)) ∧
      (env.flush = FlushResult.outOfDate →
        st.previous_frame_end = some (GpuFuture.now inst.device)) ∧
      (∀ code, env.flush = FlushResult.err code →
        st.previous_frame_end = some (GpuFuture.now inst.device)) := by
  refine ⟨_, _, render_success_eq inst rcx env prev fb i b hrcx hprev hacq hfb hrec hexec,
    ?_, ?_, ?_⟩
  · intro h
    simp [h]
  · intro h
    simp [h]
  · intro code h
    simp [h]

/-- Closed evaluation of the C6 theorem at concrete inputs, on the out of
date flush environment. -/
theorem c6_flush_degrades_gracefully_witness :
    demo_inst.rcx = some demo_rcx ∧
    demo_inst.previous_frame_end = some demo_token ∧
    env_flush_out_of_date.acquire = AcquireResult.ok 1 false ∧
    demo_rcx.frame_buffers.get? 1 =
      some { render_pass := demo_rcx.render_pass,
             attachments := [ImageView.new_default { id := 1 }] } ∧
    env_flush_out_of_date.record_ok = true ∧
    env_flush_out_of_date.execute_ok = true ∧
    ∃ st sub,
      Renderer.render demo_inst env_flush_out_of_date =
        RenderOutcome.returns st (some sub) ∧
      (env_flush_out_of_date.flush = FlushResult.ok →
        st.previous_frame_end = some (GpuFuture.fence_signal sub.future)) ∧
      (env_flush_out_of_date.flush = FlushResult.outOfDate →
        st.previous_frame_end = some (GpuFuture.now demo_inst.device)) ∧
      (∀ code, env_flush_out_of_date.flush = FlushResult.err code →
        st.previous_frame_end = some (GpuFuture.now demo_inst.device)) :=
  ⟨rfl, rfl, rfl, rfl, rfl, rfl,
    c6_flush_degrades_gracefully demo_inst demo_rcx env_flush_out_of_date
      demo_token
      { render_pass := demo_rcx.render_pass,
        attachments := [ImageView.new_default { id := 1 }] }
      1 false rfl rfl rfl rfl rfl rfl⟩

/-- C2 as stated fails on the code at two concrete inputs.  First, when
acquisition reports out of date, Renderer::render returns with
previous_frame_end untouched: the token demo_token is the very token the
call started with, not a replacement.  Second, when the token is absent and
acquisition succeeds, the call reaches previous_frame_end.take().unwrap()
and panics, although the claim requires it not to panic when the token is
absent. -/
theorem c2_counterexample :
    (Renderer.render demo_inst env_out_of_date =
        RenderOutcome.returns demo_inst none ∧
      demo_inst.previous_frame_end = some demo_token) ∧
    Renderer.render demo_inst_no_token env_all_ok =
      RenderOutcome.panicked "called Option unwrap on a None value" :=
  ⟨⟨rfl, rfl⟩, rfl⟩

/-- C2 amended: for every call in which acquisition succeeds with an
in range image index and recording and execution succeed, if the previous
frame end token is present then on return it has been replaced by exactly
one new token, taken by move and never left null: the token appears exactly
once, inside the submission chain, and the new stored token is the fenced
chain on a successful flush and a fresh no op future otherwise; if instead
the token is absent, the operation panics at the unwrap of the taken token
(it does not return normally).  When acquisition reports out of date the
token is left unchanged (see the C10 theorem). -/
theorem c2_token_replacement (inst : RenderInstance) (rcx : RenderContext)
    (env : FrameEnv) (fb : FramebufferT) (i : Nat) (b : Bool)
    (hrcx : inst.rcx = some rcx)
    (hacq : env.acquire = AcquireResult.ok i b)
    (hfb : rcx.frame_buffers.get? i = some fb)
    (hrec : env.record_ok = true)
    (hexec : env.execute_ok = true) :
    (∀ prev, inst.previous_frame_end = some prev →
      ∃ st sub, Renderer.render inst env = RenderOutcome.returns st (some sub) ∧
        sub.future =
          GpuFuture.then_present
            (GpuFuture.then_execute
              (GpuFuture.join prev (GpuFuture.acquired rcx.swapchain.id i))
              inst.queue sub.command_buffer)
            inst.queue rcx.swapchain.id i ∧
        st.previous_frame_end =
          some (if env.flush = FlushResult.ok then GpuFuture.fence_signal sub.future
                else GpuFuture.now inst.device) ∧
        st.previous_frame_end.isSome = true) ∧
    (inst.previous_frame_end = none →
      Renderer.render inst env =
        RenderOutcome.panicked "called Option unwrap on a None value") := by
  constructor
  · intro prev hprev
    refine ⟨_, _, render_success_eq inst rcx env prev fb i b hrcx hprev hacq hfb hrec hexec,
      rfl, ?_, rfl⟩
    cases hfl : env.flush <;> simp [hfl]
  · intro hnone
    simp only [Renderer.render, hrcx, hacq, hfb, hrec, hexec,
      map_cleanup_finished, hnone, if_true]

/-- Closed evaluation of the C2 amended theorem at concrete inputs: the
present token branch at demo_inst, and the absent token branch at
demo_inst_no_token. -/
theorem c2_token_replacement_witness :
    demo_inst.rcx = some demo_rcx ∧
    env_all_ok.acquire = AcquireResult.ok 0 false ∧
    demo_rcx.frame_buffers.get? 0 =
      some { render_pass := demo_rcx.render_pass,
             attachments := [ImageView.new_default { id := 0 }] } ∧
    env_all_ok.record_ok = true ∧
    env_all_ok.execute_ok = true ∧
    (∃ st sub,
      Renderer.render demo_inst env_all_ok = RenderOutcome.returns st (some sub) ∧
      sub.future =
        GpuFuture.then_present
          (GpuFuture.then_execute
            (GpuFuture.join demo_token (GpuFuture.acquired demo_rcx.swapchain.id 0))
            demo_inst.queue sub.command_buffer)
          demo_inst.queue demo_rcx.swapchain.id 0 ∧
      st.previous_frame_end =
        some (if env_all_ok.flush = FlushResult.ok then GpuFuture.fence_signal sub.future
              else GpuFuture.now demo_inst.device) ∧
      st.previous_frame_end.isSome = true) ∧
    Renderer.render demo_inst_no_token env_all_ok =
      RenderOutcome.panicked "called Option unwrap on a None value" := by
  have h := c2_token_replacement demo_inst demo_rcx env_all_ok
    { render_pass := demo_rcx.render_pass,
      attachments := [ImageView.new_default { id := 0 }] }
    0 false rfl rfl rfl rfl rfl
  have h2 := c2_token_replacement demo_inst_no_token demo_rcx env_all_ok
    { render_pass := demo_rcx.render_pass,
      attachments := [ImageView.new_default { id := 0 }] }
    0 false rfl rfl rfl rfl rfl
  exact ⟨rfl, rfl, rfl, rfl, rfl, h.1 demo_token rfl, h2.2 rfl⟩

/-- C9 as stated fails on the code at a concrete input: with a fully
initialised renderer state, an acquisition failure other than out of date
(an intra frame failure, not an initialisation error) makes Renderer::render
panic, and in src/app.rs the window event handler calls render without
catching anything, so the panic propagates to the caller. -/
theorem c9_counterexample :
    demo_inst.rcx = some demo_rcx ∧
    demo_inst.previous_frame_end = some demo_token ∧
    Renderer.render demo_inst env_acquire_err =
      RenderOutcome.panicked "Failed to acquire next image" :=
  ⟨rfl, rfl, rfl⟩

/-- C9 amended: after successful initialisation (context and token present),
no panic propagates to the caller provided the per frame driver steps other
than the flush do not fail: when acquisition reports out of date, or when it
succeeds with an in range index and recording and execution succeed, the
call returns normally for every flush outcome; a non out of date acquisition
failure (and a recording or execution failure) is fatal instead. -/
theorem c9_no_panic_on_supported_paths (inst : RenderInstance)
    (rcx : RenderContext) (env : FrameEnv) (prev : GpuFuture)
    (hrcx : inst.rcx = some rcx)
    (hprev : inst.previous_frame_end = some prev)
    (hsteps : env.acquire = AcquireResult.outOfDate ∨
      ∃ i b fb, env.acquire = AcquireResult.ok i b ∧
        rcx.frame_buffers.get? i = some fb ∧
        env.record_ok = true ∧ env.execute_ok = true) :
    ∃ st sub, Renderer.render inst env = RenderOutcome.returns st sub := by
  rcases hsteps with h | ⟨i, b, fb, hacq, hfb, hrec, hexec⟩
  · refine ⟨inst, none, ?_⟩
    simp only [Renderer.render, hrcx, h, map_cleanup_finished]
    rw [← hrcx]
  · exact ⟨_, _, render_success_eq inst rcx env prev fb i b hrcx hprev hacq hfb hrec hexec⟩

/-- Closed evaluation of the C9 amended theorem at concrete inputs. -/
theorem c9_no_panic_on_supported_paths_witness :
    demo_inst.rcx = some demo_rcx ∧
    demo_inst.previous_frame_end = some demo_token ∧
    env_all_ok.acquire = AcquireResult.ok 0 false ∧
    ∃ st sub, Renderer.render demo_inst env_all_ok = RenderOutcome.returns st sub :=
  ⟨rfl, rfl, rfl,
    c9_no_panic_on_supported_paths demo_inst demo_rcx env_all_ok demo_token rfl rfl
      (Or.inr ⟨0, false,
        { render_pass := demo_rcx.render_pass,
          attachments := [ImageView.new_default { id := 0 }] },
        rfl, rfl, rfl, rfl⟩)⟩

/-- Specification of positionIndexed on success: the found index is at or
after the start index, the family at that offset satisfies the predicate,
and every earlier position fails it. -/
theorem positionIndexed_some (pred : Nat → QueueFamilyProperties → Bool) :
    ∀ (l : List QueueFamilyProperties) (i k : Nat),
      positionIndexed pred i l = some k →
      i ≤ k ∧
      (∃ q, l.get? (k - i) = some q ∧ pred k q = true) ∧
      (∀ j, i ≤ j → j < k → ∀ q, l.get? (j - i) = some q → pred j q = false) := by
  intro l
  induction l with
  | nil => intro i k h; simp [positionIndexed] at h
  | cons q rest ih =>
    intro i k h
    rw [positionIndexed] at h
    by_cases hp : pred i q = true
    · rw [if_pos hp] at h
      obtain rfl : i = k := Option.some.inj h
      refine ⟨Nat.le_refl _, ⟨q, by simp, hp⟩, ?_⟩
      intro j hij hjk
      omega
    · rw [if_neg hp] at h
      obtain ⟨hik, ⟨q2, hget, hq2⟩, hmin⟩ := ih (i + 1) k h
      refine ⟨by omega, ⟨q2, ?_, hq2⟩, ?_⟩
      · have hsub : k - i = (k - (i + 1)) + 1 := by omega
        rw [hsub, List.get?_cons_succ]
        exact hget
      · intro j hij hjk qq hgq
        rcases Nat.eq_or_lt_of_le hij with rfl | hlt
        · rw [Nat.sub_self, List.get?_cons_zero] at hgq
          obtain rfl : q = qq := Option.some.inj hgq
          exact Bool.not_eq_true _ ▸ Bool.eq_false_iff.mpr hp
        · have hsub : j - i = (j - (i + 1)) + 1 := by omega
          rw [hsub, List.get?_cons_succ] at hgq
          exact hmin j (by omega) hjk qq hgq

/-- Specification of positionIndexed on failure: no position satisfies the
predicate. -/
theorem positionIndexed_none (pred : Nat → QueueFamilyProperties → Bool) :
    ∀ (l : List QueueFamilyProperties) (i : Nat),
      positionIndexed pred i l = none →
      ∀ n q, l.get? n = some q → pred (i + n) q = false := by
  intro l
  induction l with
  | nil => intro i _ n q hg; simp at hg
  | cons x rest ih =>
    intro i h n q hg
    rw [positionIndexed] at h
    by_cases hp : pred i x = true
    · rw [if_pos hp] at h
      exact absurd h (by simp)
    · rw [if_neg hp] at h
      match n, hg with
      | 0, hg =>
        obtain rfl : x = q := Option.some.inj hg
        simpa using Bool.eq_false_iff.mpr hp
      | n + 1, hg =>
        have := ih (i + 1) h n q (by simpa using hg)
        have harith : i + 1 + n = i + (n + 1) := by omega
        rw [harith] at this
        exact this

/-- The enumerated any is the definedness of the enumerated position search. -/
theorem anyIndexed_eq_isSome (pred : Nat → QueueFamilyProperties → Bool) :
    ∀ (l : List QueueFamilyProperties) (i : Nat),
      anyIndexed pred i l = (positionIndexed pred i l).isSome := by
  intro l
  induction l with
  | nil => intro i; simp [anyIndexed, positionIndexed]
  | cons q rest ih =>
    intro i
    rw [anyIndexed, positionIndexed]
    by_cases hp : pred i q = true
    · simp [hp]
    · simp only [Bool.eq_false_iff.mpr hp, Bool.false_or, if_neg hp]
      exact ih (i + 1)

/-- Index form of the qualification test. -/
theorem index_qualifies_iff (p : PhysicalDevice) (k : Nat) :
    index_qualifies p k = true ↔
      ∃ q, p.queue_family_properties.get? k = some q ∧
        family_qualifies p k q = true := by
  unfold index_qualifies
  cases h : p.queue_family_properties.get? k <;> simp [h]

/-- A device has a qualifying family exactly when some index qualifies. -/
theorem has_qualifying_family_iff (p : PhysicalDevice) :
    has_qualifying_family p = true ↔ ∃ k, index_qualifies p k = true := by
  unfold has_qualifying_family
  rw [anyIndexed_eq_isSome, Option.isSome_iff_exists]
  constructor
  · rintro ⟨k, hk⟩
    obtain ⟨-, ⟨q, hget, hq⟩, -⟩ := positionIndexed_some _ _ 0 k hk
    rw [Nat.sub_zero] at hget
    exact ⟨k, (index_qualifies_iff p k).mpr ⟨q, hget, hq⟩⟩
  · rintro ⟨k, hk⟩
    obtain ⟨q, hget, hq⟩ := (index_qualifies_iff p k).mp hk
    cases hpos : positionIndexed (fun i q => family_qualifies p i q) 0
        p.queue_family_properties with
    | some m => exact ⟨m, rfl⟩
    | none =>
      have := positionIndexed_none _ _ 0 hpos k q hget
      rw [Nat.zero_add] at this
      rw [this] at hq
      cases hq

/-- Decomposition of a successful find?: the result satisfies the predicate
and everything before it in the list fails it. -/
theorem find?_first_split {α : Type} (p : α → Bool) :
    ∀ (l : List α) (a : α), l.find? p = some a →
      p a = true ∧ ∃ pre post, l = pre ++ a :: post ∧ ∀ x ∈ pre, p x = false := by
  intro l
  induction l with
  | nil => intro a h; simp at h
  | cons x xs ih =>
    intro a h
    by_cases hx : p x = true
    · rw [List.find?_cons_of_pos _ hx] at h
      obtain rfl : x = a := Option.some.inj h
      exact ⟨hx, [], xs, rfl, by simp⟩
    · rw [List.find?_cons_of_neg _ hx] at h
      obtain ⟨ha, pre, post, rfl, hpre⟩ := ih a h
      refine ⟨ha, x :: pre, post, rfl, ?_⟩
      intro y hy
      rcases List.mem_cons.mp hy with rfl | hy
      · exact Bool.eq_false_iff.mpr hx
      · exact hpre y hy

/-- Specification of the surface format choice: on success the result is the
preferred format when some reported format is B8G8R8A8_SRGB, and the first
reported format when none is. -/
theorem choose_image_format_spec (formats : List (Format × ColorSpace))
    (fc : Format × ColorSpace) (h : choose_image_format formats = some fc) :
    ((∃ x ∈ formats, x.1 = Format.B8G8R8A8_SRGB) →
      fc.1 = Format.B8G8R8A8_SRGB) ∧
    ((∀ x ∈ formats, x.1 ≠ Format.B8G8R8A8_SRGB) →
      ∃ f0 rest, formats = f0 :: rest ∧ fc = f0) := by
  match formats, h with
  | f0 :: rest, h =>
    rw [choose_image_format] at h
    constructor
    · rintro ⟨x, hx, hx1⟩
      have hsome : ((f0 :: rest).find? fun y => y.1 == Format.B8G8R8A8_SRGB).isSome := by
        rw [List.find?_isSome]
        exact ⟨x, hx, by simp [hx1]⟩
      obtain ⟨a, ha⟩ := Option.isSome_iff_exists.mp hsome
      rw [ha] at h
      obtain rfl : a = fc := Option.some.inj h
      have := List.find?_some ha
      simpa using this
    · intro hall
      have hnone : ((f0 :: rest).find? fun y => y.1 == Format.B8G8R8A8_SRGB) = none := by
        rw [List.find?_eq_none]
        intro x hx
        simp [hall x hx]
      rw [hnone] at h
      exact ⟨f0, rest, rfl, (Option.some.inj h).symm⟩

/-- C3: the selected queue family index is the first qualifying index on the
first extension surviving device that has any qualifying family (first
match, no scoring, no fallback), and when no index qualifies on any device
the setup fails before producing anything. -/
theorem c3_first_match_selection (driver : SetupDriver)
    (devs : List PhysicalDevice) (ws : Nat × Nat) :
    (∀ r, RenderInstance.new driver devs ws = some r →
      index_qualifies r.physical_device r.queue_family_index = true ∧
      (∀ j, j < r.queue_family_index →
        index_qualifies r.physical_device j = false) ∧
      ∃ pre post, filtered_devices devs = pre ++ r.physical_device :: post ∧
        (∀ q ∈ pre, has_qualifying_family q = false) ∧
        has_qualifying_family r.physical_device = true) ∧
    ((∀ p ∈ devs, ∀ i, index_qualifies p i = false) →
      RenderInstance.new driver devs ws = none) := by
  constructor
  · intro r h
    rw [RenderInstance.new] at h
    cases hsel : select_physical_device devs with
    | none => rw [hsel] at h; cases h
    | some p =>
      rw [hsel] at h
      simp only [Option.bind_eq_bind, Option.some_bind] at h
      cases hq : select_queue_family_index p with
      | none => rw [hq] at h; cases h
      | some qfi =>
        rw [hq] at h
        simp only [Option.bind_eq_bind, Option.some_bind] at h
        cases hi : mk_swapchaininfo p ws with
        | none => rw [hi] at h; cases h
        | some info =>
          rw [hi] at h
          simp only [Option.bind_eq_bind, Option.some_bind] at h
          obtain rfl := (Option.some.inj h).symm
          have hfirst := find?_first_split has_qualifying_family
            (filtered_devices devs) p hsel
          rw [select_queue_family_index] at hq
          obtain ⟨-, ⟨q2, hget, hq2⟩, hmin⟩ := positionIndexed_some _ _ 0 qfi hq
          rw [Nat.sub_zero] at hget
          refine ⟨(index_qualifies_iff p qfi).mpr ⟨q2, hget, hq2⟩, ?_, ?_⟩
          · intro j hj
            cases hij : index_qualifies p j with
            | false => rfl
            | true =>
              obtain ⟨qq, hgq, hfq⟩ := (index_qualifies_iff p j).mp hij
              have := hmin j (Nat.zero_le j) hj qq (by rwa [Nat.sub_zero])
              rw [this] at hfq
              cases hfq
          · obtain ⟨hp, pre, post, heq, hpre⟩ := hfirst
            exact ⟨pre, post, heq, hpre, hp⟩
  · intro hnone
    have hfind : (filtered_devices devs).find? has_qualifying_family = none := by
      rw [List.find?_eq_none]
      intro p hp hq
      obtain ⟨k, hk⟩ := (has_qualifying_family_iff p).mp hq
      rw [hnone p (List.mem_of_mem_filter hp) k] at hk
      cases hk
    rw [RenderInstance.new, select_physical_device, hfind]
    rfl

/-- Closed evaluation of the C3 theorem on the demo device list: the no
extension device and the no family device are passed over, demo_dev_good is
selected, and its first qualifying family index is 1. -/
theorem c3_first_match_selection_witness :
    RenderInstance.new demo_driver demo_devs (640, 480) = some demo_new_result ∧
    (index_qualifies demo_new_result.physical_device
        demo_new_result.queue_family_index = true ∧
      (∀ j, j < demo_new_result.queue_family_index →
        index_qualifies demo_new_result.physical_device j = false) ∧
      ∃ pre post,
        filtered_devices demo_devs = pre ++ demo_new_result.physical_device :: post ∧
        (∀ q ∈ pre, has_qualifying_family q = false) ∧
        has_qualifying_family demo_new_result.physical_device = true) :=
  ⟨rfl, (c3_first_match_selection demo_driver demo_devs (640, 480)).1
    demo_new_result rfl⟩

/-- C8: the device selector only ever selects devices whose supported
extensions contain the required presentation capable set; in particular the
selected device always has the swapchain extension. -/
theorem c8_selected_device_has_swapchain_ext (devs : List PhysicalDevice)
    (p : PhysicalDevice) (h : select_physical_device devs = some p) :
    p.supported_extensions.contains device_extensions = true ∧
    p.supported_extensions.khr_swapchain = true := by
  have hmem : p ∈ filtered_devices devs := List.mem_of_find?_eq_some h
  have hfil := (List.mem_filter.mp hmem).2
  refine ⟨hfil, ?_⟩
  simpa [DeviceExtensions.contains, device_extensions] using hfil

/-- Closed evaluation of the C8 theorem on the demo device list. -/
theorem c8_selected_device_has_swapchain_ext_witness :
    select_physical_device demo_devs = some demo_dev_good ∧
    demo_dev_good.supported_extensions.contains device_extensions = true ∧
    demo_dev_good.supported_extensions.khr_swapchain = true :=
  ⟨rfl, c8_selected_device_has_swapchain_ext demo_devs demo_dev_good rfl⟩

/-- C4: the derived swapchain parameters are exactly as specified: the
image count is the surface reported minimum, the extent is the window inner
size, the present mode is FIFO, the usage is colour attachment, the
composite alpha is the first supported mode reported, and the format is
B8G8R8A8_SRGB when the surface reports it and the first reported format
otherwise. -/
theorem c4_swapchain_parameters (p : PhysicalDevice) (ws : Nat × Nat)
    (info : SwapchainCreateInfo) (h : mk_swapchaininfo p ws = some info) :
    info.min_image_count = p.surface_capabilities.min_image_count ∧
    info.image_extent = ws ∧
    info.present_mode = PresentMode.Fifo ∧
    info.image_usage = ImageUsage.colorAttachment ∧
    p.surface_capabilities.supported_composite_alpha.head? =
      some info.composite_alpha ∧
    ((∃ x ∈ p.surface_formats, x.1 = Format.B8G8R8A8_SRGB) →
      info.image_format = Format.B8G8R8A8_SRGB) ∧
    ((∀ x ∈ p.surface_formats, x.1 ≠ Format.B8G8R8A8_SRGB) →
      ∃ f0 rest, p.surface_formats = f0 :: rest ∧ info.image_format = f0.1) := by
  rw [mk_swapchaininfo] at h
  cases hf : choose_image_format p.surface_formats with
  | none => rw [hf] at h; cases h
  | some fc =>
    rw [hf] at h
    cases hca : p.surface_capabilities.supported_composite_alpha.head? with
    | none => rw [hca] at h; cases h
    | some ca =>
      rw [hca] at h
      obtain rfl := (Option.some.inj h).symm
      obtain ⟨hpref, hfall⟩ := choose_image_format_spec p.surface_formats fc hf
      refine ⟨rfl, rfl, rfl, rfl, rfl, hpref, ?_⟩
      intro hall
      obtain ⟨f0, rest, heq, hfc⟩ := hfall hall
      exact ⟨f0, rest, heq, congrArg Prod.fst hfc⟩

/-- Closed evaluation of the C4 theorem on demo_dev_good, whose surface
reports the preferred format in second position. -/
theorem c4_swapchain_parameters_witness :
    mk_swapchaininfo demo_dev_good (640, 480) = some demo_info_good ∧
    (demo_info_good.min_image_count =
        demo_dev_good.surface_capabilities.min_image_count ∧
      demo_info_good.image_extent = (640, 480) ∧
      demo_info_good.present_mode = PresentMode.Fifo ∧
      demo_info_good.image_usage = ImageUsage.colorAttachment ∧
      demo_dev_good.surface_capabilities.supported_composite_alpha.head? =
        some demo_info_good.composite_alpha ∧
      ((∃ x ∈ demo_dev_good.surface_formats, x.1 = Format.B8G8R8A8_SRGB) →
        demo_info_good.image_format = Format.B8G8R8A8_SRGB) ∧
      ((∀ x ∈ demo_dev_good.surface_formats, x.1 ≠ Format.B8G8R8A8_SRGB) →
        ∃ f0 rest, demo_dev_good.surface_formats = f0 :: rest ∧
          demo_info_good.image_format = f0.1)) :=
  ⟨rfl, c4_swapchain_parameters demo_dev_good (640, 480) demo_info_good rfl⟩

/-- C5: RenderContext.new builds exactly one image view per swapchain image
and one framebuffer per image view, in the same order: the framebuffer at
index k binds precisely the image view at index k (built from the image at
index k) as its sole attachment, so the sequences are index aligned and
their lengths agree for every image count. -/
theorem c5_framebuffer_alignment (device surface : Nat)
    (info : SwapchainCreateInfo) (sid : Nat) (images : List Image)
    (c : RenderContext) (hc : c = RenderContext.new device surface info sid images) :
    c.frame_buffers.length = images.length ∧
    c.image_views.length = images.length ∧
    ∀ k, k < images.length →
      ∃ img, images.get? k = some img ∧
        c.image_views.get? k = some (ImageView.new_default img) ∧
        c.frame_buffers.get? k =
          some { render_pass := c.render_pass,
                 attachments := [ImageView.new_default img] } := by
  subst hc
  refine ⟨by simp [RenderContext.new], by simp [RenderContext.new], ?_⟩
  intro k hk
  cases hg : images.get? k with
  | none =>
    rw [List.get?_eq_none] at hg
    omega
  | some img =>
    have hg2 : images[k]? = some img := by
      rw [← List.get?_eq_getElem?]
      exact hg
    refine ⟨img, rfl, ?_, ?_⟩
    · simp [RenderContext.new, List.getElem?_map, hg2]
    · simp [RenderContext.new, List.getElem?_map, hg2]

/-- Closed evaluation of the C5 theorem on the demo render context over two
images. -/
theorem c5_framebuffer_alignment_witness :
    demo_rcx = RenderContext.new 1 2 demo_info 7 demo_images ∧
    (demo_rcx.frame_buffers.length = demo_images.length ∧
      demo_rcx.image_views.length = demo_images.length ∧
      ∀ k, k < demo_images.length →
        ∃ img, demo_images.get? k = some img ∧
          demo_rcx.image_views.get? k = some (ImageView.new_default img) ∧
          demo_rcx.frame_buffers.get? k =
            some { render_pass := demo_rcx.render_pass,
                   attachments := [ImageView.new_default img] }) :=
  ⟨rfl, c5_framebuffer_alignment 1 2 demo_info 7 demo_images demo_rcx rfl⟩
